import Mathlib

/-!
Shallow embedding of `src/ddgs_mcp/main.py` (ddgs-mcp).

The module exposes two MCP tools (`web_search`, `news_search`) and two
resource templates (`web_search_resource`, `news_search_resource`) that
delegate to an external DDGS client. We model the client as an injected
function from the argument record of a call to `Except String (List
SearchResult)`: `Except.error e` models the provider raising an exception
whose string form is `e`. Each embedded operation returns, next to its
result, the list of provider calls it performed, so that theorems can speak
about how often and with which arguments the provider was invoked.

Keyword arguments that a call site leaves unset (so that the DDGS library
default applies) are modelled as `none` fields of the argument record; a
supplied value is `some v`. The tools' `timelimit` parameter is itself
`str | None` in Python, hence `Option (Option String)` in the call record.

The FastMCP/pydantic layer binds and validates tool arguments before the
function body runs; the only value constraint declared in the source is
`Field(ge=1, le=100)` on `max_results` of both tools. `web_search_tool` and
`news_search_tool` model this binding layer: out-of-range `max_results` is
rejected before the body (and hence before any provider call).
-/

/-- A result record produced by the provider. The adapter never inspects its
fields; it only measures the list length and passes records through. -/
structure SearchResult where
  title : String
  href : String
  body : String
deriving DecidableEq, Repr

/-- JSON-shaped values occurring in the dictionaries the adapter builds:
strings, integers, `null` (Python `None`), and lists of provider results. -/
inductive JVal where
  | s : String → JVal
  | n : Int → JVal
  | null : JVal
  | arr : List SearchResult → JVal
deriving DecidableEq, Repr

/-- A Python `str | None` value as a JSON value. -/
def jOptS : Option String → JVal
  | some t => JVal.s t
  | none => JVal.null

/-- Argument record of a `DDGS.text(...)` call. `none` means the keyword was
not supplied by the call site, so the library default applies. -/
structure TextArgs where
  query : String
  region : Option String := none
  max_results : Option Int := none
  safesearch : Option String := none
  timelimit : Option (Option String) := none
  backend : Option String := none
deriving DecidableEq, Repr

/-- Argument record of a `DDGS.news(...)` call. `none` means the keyword was
not supplied by the call site, so the library default applies. -/
structure NewsArgs where
  query : String
  region : Option String := none
  max_results : Option Int := none
  timelimit : Option (Option String) := none
  backend : Option String := none
  safesearch : Option String := none
deriving DecidableEq, Repr

/-- The injected provider capability for text search. -/
abbrev TextProvider := TextArgs → Except String (List SearchResult)

/-- The injected provider capability for news search. -/
abbrev NewsProvider := NewsArgs → Except String (List SearchResult)

/-- The adapter's envelopes are Python dictionaries; we keep them as
insertion-ordered association lists. -/
abbrev Envelope := List (String × JVal)

/-- The message of the `RuntimeError` raised by `web_search` on a provider
error `e` (main.py lines 69-72). -/
def webFailMessage (e : String) : String :=
  "DDGS web search failed: " ++ e ++
    ". Check query parameters and backend availability."

/-- The message of the `RuntimeError` raised by `news_search` on a provider
error `e` (main.py lines 116-119). -/
def newsFailMessage (e : String) : String :=
  "DDGS news search failed: " ++ e ++
    ". Check query parameters and backend availability."

/-- The provider call `web_search` makes (main.py lines 53-60): every keyword
is supplied, with `safesearch` fixed to the literal "moderate". -/
def webTextCall (query region : String) (max_results : Int)
    (timelimit : Option String) (backend : String) : TextArgs :=
  { query := query, region := some region, max_results := some max_results,
    safesearch := some "moderate", timelimit := some timelimit,
    backend := some backend }

/-- The provider call `news_search` makes (main.py lines 101-107): the five
tool parameters are supplied; no `safesearch` keyword is passed. -/
def newsCall (query region : String) (max_results : Int)
    (timelimit : Option String) (backend : String) : NewsArgs :=
  { query := query, region := some region, max_results := some max_results,
    timelimit := some timelimit, backend := some backend }

/-- The success dictionary built by `web_search` (main.py lines 62-68): keys
query, region, backend, results_count, results — in that order. -/
def webEnvelope (query region backend : String)
    (results : List SearchResult) : Envelope :=
  [("query", JVal.s query), ("region", JVal.s region),
   ("backend", JVal.s backend),
   ("results_count", JVal.n results.length),
   ("results", JVal.arr results)]

/-- The success dictionary built by `news_search` (main.py lines 109-115):
keys query, timelimit, backend, results_count, results — in that order. -/
def newsEnvelope (query : String) (timelimit : Option String)
    (backend : String) (results : List SearchResult) : Envelope :=
  [("query", JVal.s query), ("timelimit", jOptS timelimit),
   ("backend", JVal.s backend),
   ("results_count", JVal.n results.length),
   ("results", JVal.arr results)]

/-- Body of the `web_search` tool (main.py lines 27-72): call the provider
once, wrap success as `webEnvelope`; wrap a provider exception as a raised
RuntimeError. The second component is the list of provider calls performed. -/
def web_search (provider : TextProvider) (query region : String)
    (max_results : Int) (timelimit : Option String) (backend : String) :
    Except String Envelope × List TextArgs :=
  match provider (webTextCall query region max_results timelimit backend) with
  | Except.ok results =>
      (Except.ok (webEnvelope query region backend results),
       [webTextCall query region max_results timelimit backend])
  | Except.error e =>
      (Except.error (webFailMessage e),
       [webTextCall query region max_results timelimit backend])

/-- Body of the `news_search` tool (main.py lines 76-119): call the provider
once, wrap success as `newsEnvelope`; wrap a provider exception as a raised
RuntimeError. The second component is the list of provider calls performed. -/
def news_search (provider : NewsProvider) (query region : String)
    (max_results : Int) (timelimit : Option String) (backend : String) :
    Except String Envelope × List NewsArgs :=
  match provider (newsCall query region max_results timelimit backend) with
  | Except.ok results =>
      (Except.ok (newsEnvelope query timelimit backend results),
       [newsCall query region max_results timelimit backend])
  | Except.error e =>
      (Except.error (newsFailMessage e),
       [newsCall query region max_results timelimit backend])

/-- The one value constraint the source declares for tool binding:
`Field(ge=1, le=100)` on `max_results` (main.py lines 32-34 and 81-83). -/
def fieldRangeOk (max_results : Int) : Bool :=
  decide (1 ≤ max_results) && decide (max_results ≤ 100)

/-- The `web_search` tool as invoked through FastMCP: pydantic enforces the
declared `max_results` bounds before the body runs; other parameters carry
no value constraints and are passed through. -/
def web_search_tool (provider : TextProvider) (query region : String)
    (max_results : Int) (timelimit : Option String) (backend : String) :
    Except String Envelope × List TextArgs :=
  if fieldRangeOk max_results then
    web_search provider query region max_results timelimit backend
  else
    (Except.error "validation error: max_results out of range", [])

/-- The `news_search` tool as invoked through FastMCP: pydantic enforces the
declared `max_results` bounds before the body runs; other parameters carry
no value constraints and are passed through. -/
def news_search_tool (provider : NewsProvider) (query region : String)
    (max_results : Int) (timelimit : Option String) (backend : String) :
    Except String Envelope × List NewsArgs :=
  if fieldRangeOk max_results then
    news_search provider query region max_results timelimit backend
  else
    (Except.error "validation error: max_results out of range", [])

/-- The provider call `web_search_resource` makes (main.py line 126): only
`query` and `max_results=5` are supplied; every other keyword is left to the
DDGS library default. -/
def resourceWebCall (query : String) : TextArgs :=
  { query := query, max_results := some 5 }

/-- The provider call `news_search_resource` makes (main.py line 135): only
`query`, `timelimit` and `max_results=5` are supplied. -/
def resourceNewsCall (query timelimit : String) : NewsArgs :=
  { query := query, timelimit := some (some timelimit),
    max_results := some 5 }

/-- The `search://web/{query}` resource (main.py lines 123-129): calls
`_ddgs_client.text(query, max_results=5)` — only query and max_results
supplied — and returns the JSON record `{query, type, results}` (serialized
with json.dumps in the source; we keep the record). A provider exception
propagates (there is no try/except here). -/
def web_search_resource (provider : TextProvider) (query : String) :
    Except String Envelope × List TextArgs :=
  match provider (resourceWebCall query) with
  | Except.ok results =>
      (Except.ok [("query", JVal.s query), ("type", JVal.s "web_search"),
        ("results", JVal.arr results)],
       [resourceWebCall query])
  | Except.error e =>
      (Except.error e, [resourceWebCall query])

/-- The `search://news/{query}{?timelimit}` resource body (main.py lines
132-144): calls `_ddgs_client.news(query, timelimit=timelimit,
max_results=5)` and returns the JSON record `{query, type, timelimit,
results}`. `timelimit` here is a plain string (the Python parameter has
default "w"). -/
def news_search_resource (provider : NewsProvider) (query : String)
    (timelimit : String) :
    Except String Envelope × List NewsArgs :=
  match provider (resourceNewsCall query timelimit) with
  | Except.ok results =>
      (Except.ok [("query", JVal.s query), ("type", JVal.s "news_search"),
        ("timelimit", JVal.s timelimit), ("results", JVal.arr results)],
       [resourceNewsCall query timelimit])
  | Except.error e =>
      (Except.error e, [resourceNewsCall query timelimit])

/-- The URI binding layer for the news resource: when the query string omits
`timelimit`, the Python default parameter value "w" applies. -/
def news_resource_fetch (provider : NewsProvider) (query : String)
    (qsTimelimit : Option String) :
    Except String Envelope × List NewsArgs :=
  news_search_resource provider query (qsTimelimit.getD "w")

/-- `strIncludes hay needle` holds when `needle` occurs contiguously in
`hay` (Python `needle in hay`). Used to examine error messages. -/
def strIncludes (hay needle : String) : Bool :=
  (List.range (hay.length + 1)).any fun i =>
    List.isPrefixOf needle.data (hay.data.drop i)

/-- A provider stub that returns an empty result list for every call. -/
def stubEmpty : TextProvider := fun _ => Except.ok []

/-- A news provider stub that returns an empty result list for every call. -/
def stubEmptyNews : NewsProvider := fun _ => Except.ok []

/-- A provider stub that raises on every call. -/
def stubErr : TextProvider := fun _ => Except.error "boom"

/-- A news provider stub that raises on every call. -/
def stubErrNews : NewsProvider := fun _ => Except.error "boom"

/-- Three fixed result records, as used by the spec's end-to-end example. -/
def sampleResults : List SearchResult :=
  [{ title := "Understanding Ownership", href := "https://example.com/1",
     body := "Ownership is Rust's most unique feature." },
   { title := "References and Borrowing", href := "https://example.com/2",
     body := "A reference lets you use a value without owning it." },
   { title := "The Slice Type", href := "https://example.com/3",
     body := "Slices reference a contiguous sequence." }]

/-- A provider stub that returns the three fixed records for every call. -/
def stub3 : TextProvider := fun _ => Except.ok sampleResults

/-! ### Helper lemmas -/

theorem fieldRangeOk_iff (mr : Int) :
    fieldRangeOk mr = true ↔ 1 ≤ mr ∧ mr ≤ 100 := by
  simp [fieldRangeOk]

theorem web_search_trace (p : TextProvider) (q r : String) (mr : Int)
    (tl : Option String) (b : String) :
    (web_search p q r mr tl b).2 = [webTextCall q r mr tl b] := by
  unfold web_search
  cases p (webTextCall q r mr tl b) <;> rfl

theorem news_search_trace (p : NewsProvider) (q r : String) (mr : Int)
    (tl : Option String) (b : String) :
    (news_search p q r mr tl b).2 = [newsCall q r mr tl b] := by
  unfold news_search
  cases p (newsCall q r mr tl b) <;> rfl

theorem web_search_tool_eq (p : TextProvider) (q r : String) (mr : Int)
    (tl : Option String) (b : String) (h1 : 1 ≤ mr) (h2 : mr ≤ 100) :
    web_search_tool p q r mr tl b = web_search p q r mr tl b := by
  unfold web_search_tool
  rw [if_pos ((fieldRangeOk_iff mr).mpr (And.intro h1 h2))]

theorem news_search_tool_eq (p : NewsProvider) (q r : String) (mr : Int)
    (tl : Option String) (b : String) (h1 : 1 ≤ mr) (h2 : mr ≤ 100) :
    news_search_tool p q r mr tl b = news_search p q r mr tl b := by
  unfold news_search_tool
  rw [if_pos ((fieldRangeOk_iff mr).mpr (And.intro h1 h2))]

theorem web_search_tool_rejected (p : TextProvider) (q r : String) (mr : Int)
    (tl : Option String) (b : String) (h : ¬(1 ≤ mr ∧ mr ≤ 100)) :
    (web_search_tool p q r mr tl b).2 = [] := by
  unfold web_search_tool
  rw [if_neg]
  intro hT
  exact h ((fieldRangeOk_iff mr).mp hT)

theorem news_search_tool_rejected (p : NewsProvider) (q r : String) (mr : Int)
    (tl : Option String) (b : String) (h : ¬(1 ≤ mr ∧ mr ≤ 100)) :
    (news_search_tool p q r mr tl b).2 = [] := by
  unfold news_search_tool
  rw [if_neg]
  intro hT
  exact h ((fieldRangeOk_iff mr).mp hT)

/-! ### Claim theorems -/

/-- C1 counterexample: `web_search` and `news_search` perform no `timelimit`
validation. With timelimit "x" — outside \x7bd,w,m,y\x7d and \x7bd,w,m\x7d —
the provider is still invoked (call count is not 0, contrary to the claim). -/
theorem c1_counterexample :
    (web_search_tool stubEmpty "q" "cn-zh" 10 (some "x") "auto").2.length ≠ 0 ∧
    (news_search_tool stubEmptyNews "q" "cn-zh" 10 (some "x") "auto").2.length ≠ 0 := by
  constructor <;> decide

/-- C1 amended: neither tool validates `timelimit`. For every invocation that
passes the declared `max_results` bounds, the provider is invoked exactly
once, and with the caller's `timelimit` value forwarded unchanged — whatever
that value is. -/
theorem c1_timelimit_forwarded_unvalidated (tp : TextProvider)
    (np : NewsProvider) (q r : String) (mr : Int) (tl : Option String)
    (b : String) (h1 : 1 ≤ mr) (h2 : mr ≤ 100) :
    (web_search_tool tp q r mr tl b).2.map TextArgs.timelimit = [some tl] ∧
    (news_search_tool np q r mr tl b).2.map NewsArgs.timelimit = [some tl] := by
  rw [web_search_tool_eq tp q r mr tl b h1 h2,
    news_search_tool_eq np q r mr tl b h1 h2,
    web_search_trace, news_search_trace]
  exact And.intro rfl rfl

/-- C1 amended witness: at the concrete invalid timelimit "x" and
`max_results` 10, each tool makes exactly one provider call carrying "x". -/
theorem c1_timelimit_forwarded_unvalidated_witness :
    (web_search_tool stubEmpty "q" "cn-zh" 10 (some "x") "auto").2.map
      TextArgs.timelimit = [some (some "x")] ∧
    (news_search_tool stubEmptyNews "q" "cn-zh" 10 (some "x") "auto").2.map
      NewsArgs.timelimit = [some (some "x")] :=
  c1_timelimit_forwarded_unvalidated stubEmpty stubEmptyNews "q" "cn-zh" 10
    (some "x") "auto" (by decide) (by decide)

/-- C2 counterexample: on a provider error, `web_search` raises the
RuntimeError message built by `webFailMessage`, and for query "zq" that
message does not contain the query string. -/
theorem c2_counterexample :
    (web_search stubErr "zq" "cn-zh" 5 none "auto").1 =
      Except.error (webFailMessage "boom") ∧
    strIncludes (webFailMessage "boom") "zq" = false := by
  constructor
  · rfl
  · decide

/-- C2 amended: both tools surface provider errors uniformly as a raised
RuntimeError whose message embeds the provider's error text ("DDGS web|news
search failed: ..."), but that representation does not include the original
query string. -/
theorem c2_uniform_error_shape (tp : TextProvider) (np : NewsProvider)
    (q r : String) (mr : Int) (tl : Option String) (b : String) (e : String)
    (hw : tp (webTextCall q r mr tl b) = Except.error e)
    (hn : np (newsCall q r mr tl b) = Except.error e) :
    (web_search tp q r mr tl b).1 = Except.error (webFailMessage e) ∧
    (news_search np q r mr tl b).1 = Except.error (newsFailMessage e) := by
  constructor
  · unfold web_search
    rw [hw]
  · unfold news_search
    rw [hn]

/-- C2 amended witness: the failing stub makes both tools raise their
respective uniform messages for the provider error "boom". -/
theorem c2_uniform_error_shape_witness :
    (web_search stubErr "q" "cn-zh" 10 none "auto").1 =
      Except.error (webFailMessage "boom") ∧
    (news_search stubErrNews "q" "cn-zh" 10 none "auto").1 =
      Except.error (newsFailMessage "boom") :=
  c2_uniform_error_shape stubErr stubErrNews "q" "cn-zh" 10 none "auto"
    "boom" rfl rfl

/-- C3: on provider success, the `web_search` envelope carries
`results_count` equal to the length of the provider's list, `results` equal
to exactly that list in the provider's order, and `region` equal to the
region argument. -/
theorem c3_success_envelope (tp : TextProvider) (q r : String) (mr : Int)
    (tl : Option String) (b : String) (rs : List SearchResult)
    (h : tp (webTextCall q r mr tl b) = Except.ok rs) :
    (web_search tp q r mr tl b).1 = Except.ok
      [("query", JVal.s q), ("region", JVal.s r), ("backend", JVal.s b),
       ("results_count", JVal.n rs.length), ("results", JVal.arr rs)] := by
  unfold web_search
  rw [h]
  rfl

/-- C3 witness: the spec's end-to-end example — a stub returning 3 fixed
records, query "rust ownership", region "us-en", max_results 3, backend
"auto" — yields results_count 3, the same records in order, region "us-en". -/
theorem c3_success_envelope_witness :
    (web_search stub3 "rust ownership" "us-en" 3 none "auto").1 = Except.ok
      [("query", JVal.s "rust ownership"), ("region", JVal.s "us-en"),
       ("backend", JVal.s "auto"), ("results_count", JVal.n 3),
       ("results", JVal.arr sampleResults)] :=
  c3_success_envelope stub3 "rust ownership" "us-en" 3 none "auto"
    sampleResults rfl

/-- C4 counterexample: `news_search` does accept a `backend` parameter and
forwards it to the provider — the provider call carries the caller's value,
bing or yahoo depending on the input. -/
theorem c4_counterexample :
    (news_search_tool stubEmptyNews "q" "cn-zh" 5 none "bing").2.map
      NewsArgs.backend = [some "bing"] ∧
    (news_search_tool stubEmptyNews "q" "cn-zh" 5 none "yahoo").2.map
      NewsArgs.backend = [some "yahoo"] := by
  constructor <;> rfl

/-- C4 amended: `news_search`'s parameter set is (query, region,
max_results, timelimit?, backend) — backend (default "auto") is accepted
and forwarded; `timelimit` is forwarded without being validated against
\x7bd,w,m\x7d; no safesearch keyword is supplied to the provider. -/
theorem c4_news_parameter_set (np : NewsProvider) (q r : String) (mr : Int)
    (tl : Option String) (b : String) (h1 : 1 ≤ mr) (h2 : mr ≤ 100) :
    (news_search_tool np q r mr tl b).2 =
      [{ query := q, region := some r, max_results := some mr,
         timelimit := some tl, backend := some b, safesearch := none }] := by
  rw [news_search_tool_eq np q r mr tl b h1 h2, news_search_trace]
  rfl

/-- C4 amended witness: with timelimit "y" (outside the news set) and
backend "bing", the single provider call carries both values and no
safesearch. -/
theorem c4_news_parameter_set_witness :
    (news_search_tool stubEmptyNews "q" "cn-zh" 5 (some "y") "bing").2 =
      [{ query := "q", region := some "cn-zh", max_results := some 5,
         timelimit := some (some "y"), backend := some "bing",
         safesearch := none }] :=
  c4_news_parameter_set stubEmptyNews "q" "cn-zh" 5 (some "y") "bing"
    (by decide) (by decide)

/-- C5 counterexample: the successful `web_search` envelope has no
`max_results` key and no `timelimit` key, and the successful `news_search`
envelope has no `region` key — defaults or not, these effective parameters
are not echoed. -/
theorem c5_counterexample :
    ((web_search_tool stubEmpty "q" "cn-zh" 10 (some "d") "auto").1.map
      fun env => env.lookup "max_results") = Except.ok none ∧
    ((web_search_tool stubEmpty "q" "cn-zh" 10 (some "d") "auto").1.map
      fun env => env.lookup "timelimit") = Except.ok none ∧
    ((news_search_tool stubEmptyNews "q" "cn-zh" 10 (some "d") "auto").1.map
      fun env => env.lookup "region") = Except.ok none := by
  refine And.intro ?_ (And.intro ?_ ?_) <;> rfl

/-- C5 amended: the success envelopes echo only part of the effective
parameters — `web_search` echoes query, region and backend but neither
max_results nor timelimit; `news_search` echoes query, timelimit and
backend but neither region nor max_results. -/
theorem c5_partial_parameter_echo (tp : TextProvider) (np : NewsProvider)
    (q r : String) (mr : Int) (tl : Option String) (b : String)
    (rsw rsn : List SearchResult)
    (hw : tp (webTextCall q r mr tl b) = Except.ok rsw)
    (hn : np (newsCall q r mr tl b) = Except.ok rsn) :
    ((web_search tp q r mr tl b).1.map fun env =>
      (env.lookup "query", env.lookup "region", env.lookup "backend",
       env.lookup "max_results", env.lookup "timelimit")) =
      Except.ok (some (JVal.s q), some (JVal.s r), some (JVal.s b),
        none, none) ∧
    ((news_search np q r mr tl b).1.map fun env =>
      (env.lookup "query", env.lookup "timelimit", env.lookup "backend",
       env.lookup "region", env.lookup "max_results")) =
      Except.ok (some (JVal.s q), some (jOptS tl), some (JVal.s b),
        none, none) := by
  constructor
  · unfold web_search
    rw [hw]
    rfl
  · unfold news_search
    rw [hn]
    rfl

/-- C5 amended witness: concrete successful calls showing the echoed and
omitted keys of both envelopes. -/
theorem c5_partial_parameter_echo_witness :
    ((web_search stubEmpty "q" "cn-zh" 10 (some "d") "auto").1.map fun env =>
      (env.lookup "query", env.lookup "region", env.lookup "backend",
       env.lookup "max_results", env.lookup "timelimit")) =
      Except.ok (some (JVal.s "q"), some (JVal.s "cn-zh"),
        some (JVal.s "auto"), none, none) ∧
    ((news_search stubEmptyNews "q" "cn-zh" 10 (some "d") "auto").1.map
      fun env =>
      (env.lookup "query", env.lookup "timelimit", env.lookup "backend",
       env.lookup "region", env.lookup "max_results")) =
      Except.ok (some (JVal.s "q"), some (JVal.s "d"),
        some (JVal.s "auto"), none, none) :=
  c5_partial_parameter_echo stubEmpty stubEmptyNews "q" "cn-zh" 10
    (some "d") "auto" [] [] rfl rfl

/-- C6: every provider call either tool makes carries the caller's
`max_results`, which the binding layer has confirmed to lie in [1,100];
an out-of-range `max_results` is rejected before dispatch, with zero
provider calls. -/
theorem c6_max_results_bounds (tp : TextProvider) (np : NewsProvider)
    (q r : String) (mr : Int) (tl : Option String) (b : String) :
    (∀ c ∈ (web_search_tool tp q r mr tl b).2,
      c.max_results = some mr ∧ 1 ≤ mr ∧ mr ≤ 100) ∧
    (∀ c ∈ (news_search_tool np q r mr tl b).2,
      c.max_results = some mr ∧ 1 ≤ mr ∧ mr ≤ 100) ∧
    (¬(1 ≤ mr ∧ mr ≤ 100) →
      (web_search_tool tp q r mr tl b).2 = [] ∧
      (news_search_tool np q r mr tl b).2 = []) := by
  by_cases hok : 1 ≤ mr ∧ mr ≤ 100
  · refine And.intro ?_ (And.intro ?_ (fun hcon => absurd hok hcon))
    · intro c hc
      rw [web_search_tool_eq tp q r mr tl b hok.1 hok.2,
        web_search_trace] at hc
      rw [List.mem_singleton.mp hc]
      exact And.intro rfl hok
    · intro c hc
      rw [news_search_tool_eq np q r mr tl b hok.1 hok.2,
        news_search_trace] at hc
      rw [List.mem_singleton.mp hc]
      exact And.intro rfl hok
  · refine And.intro ?_ (And.intro ?_ ?_)
    · intro c hc
      rw [web_search_tool_rejected tp q r mr tl b hok] at hc
      exact absurd hc (List.not_mem_nil c)
    · intro c hc
      rw [news_search_tool_rejected np q r mr tl b hok] at hc
      exact absurd hc (List.not_mem_nil c)
    · intro _
      exact And.intro (web_search_tool_rejected tp q r mr tl b hok)
        (news_search_tool_rejected np q r mr tl b hok)

/-- C6 witness: at `max_results` 10 the single web provider call carries
`some 10`, within bounds; and at 200 the request is rejected with zero
provider calls. -/
theorem c6_max_results_bounds_witness :
    ((webTextCall "q" "cn-zh" 10 none "auto").max_results = some 10 ∧
      (1 : Int) ≤ 10 ∧ (10 : Int) ≤ 100) ∧
    (web_search_tool stubEmpty "q" "cn-zh" 200 none "auto").2 = [] ∧
    (news_search_tool stubEmptyNews "q" "cn-zh" 200 none "auto").2 = [] :=
  And.intro
    ((c6_max_results_bounds stubEmpty stubEmptyNews "q" "cn-zh" 10 none
      "auto").1 (webTextCall "q" "cn-zh" 10 none "auto") (by decide))
    ((c6_max_results_bounds stubEmpty stubEmptyNews "q" "cn-zh" 200 none
      "auto").2.2 (by decide))

/-- C7: fetching `search://web/\x7bquery\x7d` makes exactly one provider text
call, with `max_results` exactly 5 and every other keyword left to the
library default; on provider success the returned document is the JSON
record with the query, the type "web_search", and the provider's results. -/
theorem c7_web_resource_fixed_five (tp : TextProvider) (q : String)
    (rs : List SearchResult)
    (h : tp (resourceWebCall q) = Except.ok rs) :
    (web_search_resource tp q).2 = [resourceWebCall q] ∧
    (resourceWebCall q).max_results = some 5 ∧
    (web_search_resource tp q).1 = Except.ok
      [("query", JVal.s q), ("type", JVal.s "web_search"),
       ("results", JVal.arr rs)] := by
  unfold web_search_resource
  rw [h]
  exact And.intro rfl (And.intro rfl rfl)

/-- C7 witness: at query "rust ownership" with the 3-record stub, the single
provider call requests 5 results and the document carries query, type and
the stub's records. -/
theorem c7_web_resource_fixed_five_witness :
    (web_search_resource stub3 "rust ownership").2 =
      [resourceWebCall "rust ownership"] ∧
    (resourceWebCall "rust ownership").max_results = some 5 ∧
    (web_search_resource stub3 "rust ownership").1 = Except.ok
      [("query", JVal.s "rust ownership"), ("type", JVal.s "web_search"),
       ("results", JVal.arr sampleResults)] :=
  c7_web_resource_fixed_five stub3 "rust ownership" sampleResults rfl

/-- C8: fetching `search://news/\x7bquery\x7d` with no timelimit in the query
string invokes the provider with timelimit "w"; with an explicit value it
invokes the provider with exactly that value; and the value used is echoed
under the "timelimit" key of the returned document. -/
theorem c8_news_resource_timelimit (np : NewsProvider) (q : String)
    (qs : Option String) (rs : List SearchResult)
    (h : np (resourceNewsCall q (qs.getD "w")) = Except.ok rs) :
    (news_resource_fetch np q qs).2 = [resourceNewsCall q (qs.getD "w")] ∧
    (resourceNewsCall q (qs.getD "w")).timelimit =
      some (some (qs.getD "w")) ∧
    (news_resource_fetch np q qs).1 = Except.ok
      [("query", JVal.s q), ("type", JVal.s "news_search"),
       ("timelimit", JVal.s (qs.getD "w")), ("results", JVal.arr rs)] := by
  unfold news_resource_fetch news_search_resource
  rw [h]
  exact And.intro rfl (And.intro rfl rfl)

/-- C8 witness: with the query string omitting timelimit the provider call
carries "w"; with explicit timelimit "d" it carries "d", echoed in the
returned document. -/
theorem c8_news_resource_timelimit_witness :
    (news_resource_fetch stubEmptyNews "q" none).2 =
      [resourceNewsCall "q" "w"] ∧
    (news_resource_fetch stubEmptyNews "q" (some "d")).2 =
      [resourceNewsCall "q" "d"] ∧
    (news_resource_fetch stubEmptyNews "q" (some "d")).1 = Except.ok
      [("query", JVal.s "q"), ("type", JVal.s "news_search"),
       ("timelimit", JVal.s "d"), ("results", JVal.arr [])] :=
  And.intro
    (c8_news_resource_timelimit stubEmptyNews "q" none [] rfl).1
    (And.intro
      (c8_news_resource_timelimit stubEmptyNews "q" (some "d") [] rfl).1
      (c8_news_resource_timelimit stubEmptyNews "q" (some "d") [] rfl).2.2)

/-- C9: each tool body raises exactly when the provider raises — a provider
error becomes the raised RuntimeError, and provider success becomes the
plain envelope, which carries no "success" key (so no success=false failure
envelope is ever returned). -/
theorem c9_raise_iff_provider_raises (tp : TextProvider) (np : NewsProvider)
    (q r : String) (mr : Int) (tl : Option String) (b : String) :
    (∀ e, tp (webTextCall q r mr tl b) = Except.error e →
      (web_search tp q r mr tl b).1 = Except.error (webFailMessage e)) ∧
    (∀ rs, tp (webTextCall q r mr tl b) = Except.ok rs →
      (web_search tp q r mr tl b).1 = Except.ok (webEnvelope q r b rs) ∧
      (webEnvelope q r b rs).lookup "success" = none) ∧
    (∀ e, np (newsCall q r mr tl b) = Except.error e →
      (news_search np q r mr tl b).1 = Except.error (newsFailMessage e)) ∧
    (∀ rs, np (newsCall q r mr tl b) = Except.ok rs →
      (news_search np q r mr tl b).1 =
        Except.ok (newsEnvelope q tl b rs) ∧
      (newsEnvelope q tl b rs).lookup "success" = none) := by
  refine And.intro ?_ (And.intro ?_ (And.intro ?_ ?_))
  · intro e he
    unfold web_search
    rw [he]
  · intro rs hrs
    unfold web_search
    rw [hrs]
    exact And.intro rfl rfl
  · intro e he
    unfold news_search
    rw [he]
  · intro rs hrs
    unfold news_search
    rw [hrs]
    exact And.intro rfl rfl

/-- C9 witness: with a failing stub `web_search` yields the raised error;
with succeeding stubs both tools yield plain envelopes whose "success"
lookup is `none`. -/
theorem c9_raise_iff_provider_raises_witness :
    (web_search stubErr "q" "cn-zh" 10 none "auto").1 =
      Except.error (webFailMessage "boom") ∧
    ((web_search stubEmpty "q" "cn-zh" 10 none "auto").1 =
      Except.ok (webEnvelope "q" "cn-zh" "auto" []) ∧
      (webEnvelope "q" "cn-zh" "auto" []).lookup "success" = none) ∧
    ((news_search stubEmptyNews "q" "cn-zh" 10 none "auto").1 =
      Except.ok (newsEnvelope "q" none "auto" []) ∧
      (newsEnvelope "q" none "auto" []).lookup "success" = none) :=
  And.intro
    ((c9_raise_iff_provider_raises stubErr stubEmptyNews "q" "cn-zh" 10 none
      "auto").1 "boom" rfl)
    (And.intro
      ((c9_raise_iff_provider_raises stubEmpty stubEmptyNews "q" "cn-zh" 10
        none "auto").2.1 [] rfl)
      ((c9_raise_iff_provider_raises stubEmpty stubEmptyNews "q" "cn-zh" 10
        none "auto").2.2.2 [] rfl))

/-- C10: every provider call a `web_search` invocation makes carries
`safesearch = "moderate"` — no input can change it. -/
theorem c10_safesearch_always_moderate (tp : TextProvider) (q r : String)
    (mr : Int) (tl : Option String) (b : String) :
    ∀ c ∈ (web_search_tool tp q r mr tl b).2,
      c.safesearch = some "moderate" := by
  intro c hc
  by_cases hok : 1 ≤ mr ∧ mr ≤ 100
  · rw [web_search_tool_eq tp q r mr tl b hok.1 hok.2,
      web_search_trace] at hc
    rw [List.mem_singleton.mp hc]
    rfl
  · rw [web_search_tool_rejected tp q r mr tl b hok] at hc
    exact absurd hc (List.not_mem_nil c)

/-- C10 witness: the single provider call of a concrete `web_search`
invocation carries safesearch "moderate". -/
theorem c10_safesearch_always_moderate_witness :
    (webTextCall "q" "cn-zh" 10 none "auto").safesearch = some "moderate" :=
  c10_safesearch_always_moderate stubEmpty "q" "cn-zh" 10 none "auto"
    (webTextCall "q" "cn-zh" 10 none "auto") (by decide)
